import Mathlib

/-!
Formal model of the ParkingExit scenario from
src/srunner/scenarios/parking_exit.py.

The scenario file is declarative glue over external collaborators
(the CARLA simulator, CarlaDataProvider, BasicScenario, py_trees).
Those collaborators are modelled abstractly: waypoints, transforms and
actors are plain records of rational coordinates, and the provider and
map queries are fields of an `Env` record supplied by the caller.
Numeric values (Python floats) are modelled as rationals.
-/

/-- A 3D vector with rational coordinates, modelling carla.Vector3D. -/
structure Vector3D where
  x : ℚ
  y : ℚ
  z : ℚ
  deriving DecidableEq

/-- Pointwise scalar multiplication on vectors; models the Python
in-place multiplication displacement_vector *= -1 when applied with -1. -/
def Vector3D.smul (c : ℚ) (v : Vector3D) : Vector3D :=
  ⟨c * v.x, c * v.y, c * v.z⟩

/-- A world location, modelling carla.Location. -/
structure Location where
  x : ℚ
  y : ℚ
  z : ℚ
  deriving DecidableEq

/-- Componentwise addition of locations, modelling carla.Location.__add__. -/
def Location.add (a b : Location) : Location :=
  ⟨a.x + b.x, a.y + b.y, a.z + b.z⟩

/-- A transform, modelling carla.Transform. The field right_vector models
the result of transform.get_right_vector(), a black box of the simulator. -/
structure Transform where
  location : Location
  right_vector : Vector3D
  deriving DecidableEq

/-- A lane waypoint, modelling carla.Waypoint: its lane width and its
transform. Lane adjacency and longitudinal queries live in `Env`. -/
structure Waypoint where
  lane_width : ℚ
  transform : Transform
  deriving DecidableEq

/-- A bounding box, modelling carla.BoundingBox: only the extent is read
by the scenario. -/
structure BoundingBox where
  extent : Vector3D
  deriving DecidableEq

/-- A simulator actor handle: an identity and the bounding box the
scenario reads. The scenario never mutates these fields; the location
writes performed via set_location are recorded in the setup trace. -/
structure Actor where
  id : Nat
  bounding_box : BoundingBox
  deriving DecidableEq

/-- Modelled from the spec: the external collaborators the scenario file
consumes as black boxes (CarlaDataProvider.get_map, the waypoint
lane-adjacency and next/previous queries of the CARLA map, and
CarlaDataProvider.request_new_actor, which returns None on spawn
failure). Each is an abstract function supplied by the caller. -/
structure Env where
  get_waypoint : Location → Waypoint
  get_left_lane : Waypoint → Option Waypoint
  get_right_lane : Waypoint → Option Waypoint
  next : Waypoint → ℚ → List Waypoint
  previous : Waypoint → ℚ → List Waypoint
  request_new_actor : Transform → Option Actor

/-- The scenario configuration read by ParkingExit.__init__: the three
optional entries of config.other_parameters and the location of the
first trigger point (config.trigger_points[0].location, assumed present
as the scenario engine guarantees). -/
structure Config where
  front_vehicle_distance : Option ℚ
  behind_vehicle_distance : Option ℚ
  parking_lane_side : Option String
  trigger_location : Location
  deriving DecidableEq

/-- The method ParkingExit._get_displaced_transform (parking_exit.py,
lines 142-156): displacement = (lane_width - bounding_box.extent.y) / 4,
applied along the right vector of the waypoint transform, negated when
parking_lane_side is "left", with 0.05 added to z. It is a pure
function of its arguments: it reads the actor and waypoint and returns
a fresh location. -/
def get_displaced_transform (parking_lane_side : String) (actor : Actor)
    (wp : Waypoint) : Location :=
  let displacement : ℚ := (wp.lane_width - actor.bounding_box.extent.y) / 4
  let displacement_vector := wp.transform.right_vector
  let displacement_vector :=
    if parking_lane_side = "left" then displacement_vector.smul (-1)
    else displacement_vector
  let new_location := wp.transform.location.add
    ⟨displacement * displacement_vector.x,
     displacement * displacement_vector.y,
     displacement * displacement_vector.z⟩
  { new_location with z := new_location.z + 0.05 }

/-- The exceptions raised during scenario setup, one constructor per
raise statement of parking_exit.py: the Exception of the constructor
when the parking lane is missing, and the four ValueError raises of
_initialize_actors. -/
inductive SetupError where
  | missingParkingLane (side : String)
  | noFrontSpawnPosition
  | frontSpawnFailed
  | noBehindSpawnPosition
  | behindSpawnFailed
  deriving DecidableEq

/-- The instance state a successful setup leaves behind: the scalar
parameters, the waypoints, the spawned other_actors in append order,
and the trace of set_location calls (actor paired with the written
location) in execution order. -/
structure ScenarioState where
  front_vehicle_distance : ℚ
  behind_vehicle_distance : ℚ
  end_distance : ℚ
  parking_lane_side : String
  reference_waypoint : Waypoint
  parking_waypoint : Waypoint
  other_actors : List Actor
  placements : List (Actor × Location)
  deriving DecidableEq

/-- The parking-waypoint lookup of ParkingExit.__init__ (parking_exit.py,
lines 74-89): the reference waypoint is the map waypoint at the first
trigger location; its left lane is taken when parking_lane_side is
"left" (the parameter defaults to "right" when absent), its right lane
for every other value. -/
def parkingWaypointLookup (env : Env) (cfg : Config) : Option Waypoint :=
  let parking_lane_side := cfg.parking_lane_side.getD "right"
  let reference_waypoint := env.get_waypoint cfg.trigger_location
  if parking_lane_side = "left" then env.get_left_lane reference_waypoint
  else env.get_right_lane reference_waypoint

/-- Scenario setup: ParkingExit.__init__ (parking_exit.py, lines 49-96)
followed by _initialize_actors (lines 98-140). Modelled from the spec:
BasicScenario (a collaborator outside this file) drives custom actor
creation during construction, so setup is the constructor body followed
by _initialize_actors. The first component of the result is the trace
of request_new_actor calls issued; the second is the resulting state,
or the first exception raised. Raising aborts setup with no retry. -/
def parkingExitSetup (env : Env) (cfg : Config) (ego : Actor) :
    List Transform × Except SetupError ScenarioState :=
  let front_vehicle_distance := cfg.front_vehicle_distance.getD 20
  let behind_vehicle_distance := cfg.behind_vehicle_distance.getD 5
  let end_distance := front_vehicle_distance + 15
  let parking_lane_side := cfg.parking_lane_side.getD "right"
  let reference_waypoint := env.get_waypoint cfg.trigger_location
  match parkingWaypointLookup env cfg with
  | none => ([], Except.error (SetupError.missingParkingLane parking_lane_side))
  | some parking_waypoint =>
    match env.next parking_waypoint front_vehicle_distance with
    | [] => ([], Except.error SetupError.noFrontSpawnPosition)
    | front_point :: _ =>
      match env.request_new_actor front_point.transform with
      | none => ([front_point.transform],
                 Except.error SetupError.frontSpawnFailed)
      | some actor_front =>
        match env.previous parking_waypoint behind_vehicle_distance with
        | [] => ([front_point.transform],
                 Except.error SetupError.noBehindSpawnPosition)
        | behind_point :: _ =>
          match env.request_new_actor behind_point.transform with
          | none => ([front_point.transform, behind_point.transform],
                     Except.error SetupError.behindSpawnFailed)
          | some actor_behind =>
            ([front_point.transform, behind_point.transform],
             Except.ok
               { front_vehicle_distance := front_vehicle_distance
                 behind_vehicle_distance := behind_vehicle_distance
                 end_distance := end_distance
                 parking_lane_side := parking_lane_side
                 reference_waypoint := reference_waypoint
                 parking_waypoint := parking_waypoint
                 other_actors := [actor_front, actor_behind]
                 placements :=
                   [(actor_front,
                     get_displaced_transform parking_lane_side actor_front
                       front_point),
                    (actor_behind,
                     get_displaced_transform parking_lane_side actor_behind
                       behind_point),
                    (ego,
                     get_displaced_transform parking_lane_side ego
                       parking_waypoint)] })

/-- The behavior-tree nodes _create_behavior composes: the two atomic
behaviors, the drive-distance condition, and the py_trees composites
it uses (Sequence, and Parallel with the SUCCESS_ON_ONE policy). -/
inductive BehaviorNode where
  | switchOutsideRouteLanesTest (active : Bool)
  | driveDistance (actor : Actor) (distance : ℚ)
  | actorDestroy (actor : Actor)
  | sequenceNode (children : List BehaviorNode)
  | parallelSuccessOnOne (children : List BehaviorNode)

/-- The method ParkingExit._create_behavior (parking_exit.py, lines
158-184), as a function of the first ego vehicle, the end distance and
other_actors. -/
def create_behavior (ego : Actor) (end_distance : ℚ)
    (other_actors : List Actor) : BehaviorNode :=
  BehaviorNode.sequenceNode
    ([BehaviorNode.switchOutsideRouteLanesTest false,
      BehaviorNode.parallelSuccessOnOne
        [BehaviorNode.sequenceNode
          [BehaviorNode.driveDistance ego end_distance]],
      BehaviorNode.switchOutsideRouteLanesTest true] ++
     other_actors.map BehaviorNode.actorDestroy)

/-- The criteria constructors used by _create_test_criteria: only
CollisionTest on an actor. -/
inductive Criterion where
  | collisionTest (actor : Actor)
  deriving DecidableEq

/-- The method ParkingExit._create_test_criteria (parking_exit.py,
lines 186-194): empty in route mode, otherwise a single CollisionTest
on the first ego vehicle. -/
def create_test_criteria (route_mode : Bool) (ego : Actor) : List Criterion :=
  if route_mode then []
  else [Criterion.collisionTest ego]

/-- A concrete right vector for sample worlds. -/
def wRightVec : Vector3D := ⟨0, 1, 0⟩

/-- A concrete reference waypoint. -/
def wpRef : Waypoint :=
  { lane_width := 3
    transform := { location := ⟨0, 0, 0⟩, right_vector := wRightVec } }

/-- A concrete parking waypoint. -/
def wpPark : Waypoint :=
  { lane_width := 3
    transform := { location := ⟨0, 3, 0⟩, right_vector := wRightVec } }

/-- A concrete waypoint ahead of the parking waypoint. -/
def wpFront : Waypoint :=
  { lane_width := 3
    transform := { location := ⟨20, 3, 0⟩, right_vector := wRightVec } }

/-- A concrete waypoint behind the parking waypoint. -/
def wpBehind : Waypoint :=
  { lane_width := 3
    transform := { location := ⟨-5, 3, 0⟩, right_vector := wRightVec } }

/-- A concrete first ego vehicle. -/
def egoActor : Actor := { id := 0, bounding_box := { extent := ⟨2, 1, 1⟩ } }

/-- A concrete blocking car returned by the sample provider. -/
def carActor : Actor := { id := 1, bounding_box := { extent := ⟨2, 1, 1⟩ } }

/-- A sample world in which every setup query succeeds. -/
def sampleEnv : Env :=
  { get_waypoint := fun _ => wpRef
    get_left_lane := fun _ => none
    get_right_lane := fun _ => some wpPark
    next := fun _ _ => [wpFront]
    previous := fun _ _ => [wpBehind]
    request_new_actor := fun _ => some carActor }

/-- A sample configuration with every optional parameter absent. -/
def sampleCfg : Config :=
  { front_vehicle_distance := none
    behind_vehicle_distance := none
    parking_lane_side := none
    trigger_location := ⟨0, 0, 0⟩ }

/-- The sample world with the parking lane removed on the right side. -/
def noLaneEnv : Env := { sampleEnv with get_right_lane := fun _ => none }

/-- The spawn-request trace of a successful sample setup. -/
def sampleTrace : List Transform := [wpFront.transform, wpBehind.transform]

/-- The state a successful sample setup produces. -/
def sampleState : ScenarioState :=
  { front_vehicle_distance := 20
    behind_vehicle_distance := 5
    end_distance := 20 + 15
    parking_lane_side := "right"
    reference_waypoint := wpRef
    parking_waypoint := wpPark
    other_actors := [carActor, carActor]
    placements :=
      [(carActor, get_displaced_transform "right" carActor wpFront),
       (carActor, get_displaced_transform "right" carActor wpBehind),
       (egoActor, get_displaced_transform "right" egoActor wpPark)] }

/-- Claim C1: for every actor and waypoint passed to
_get_displaced_transform, the lateral displacement scalar used to place
the actor equals (lane_width - actor_width) / 4, where lane_width is
the lane width of the waypoint and actor_width is the width quantity
the code reads from the actor, bounding_box.extent.y: the returned
location is the waypoint location shifted by that scalar times the
(possibly sign-flipped) right vector, plus the 0.05 z safety offset. -/
theorem displacement_magnitude_eq (parking_lane_side : String)
    (actor : Actor) (wp : Waypoint) :
    ∃ d : ℚ,
      d = (wp.lane_width - actor.bounding_box.extent.y) / 4 ∧
      ∃ v : Vector3D,
        (v = wp.transform.right_vector ∨
         v = (wp.transform.right_vector).smul (-1)) ∧
        get_displaced_transform parking_lane_side actor wp =
          { x := wp.transform.location.x + d * v.x,
            y := wp.transform.location.y + d * v.y,
            z := wp.transform.location.z + d * v.z + 0.05 } := by
  refine ⟨(wp.lane_width - actor.bounding_box.extent.y) / 4, rfl, ?_⟩
  by_cases h : parking_lane_side = "left"
  · exact ⟨(wp.transform.right_vector).smul (-1), Or.inr rfl, by
      simp [get_displaced_transform, h, Location.add]⟩
  · exact ⟨wp.transform.right_vector, Or.inl rfl, by
      simp [get_displaced_transform, h, Location.add]⟩

/-- Claim C7: the location returned by _get_displaced_transform equals
the waypoint location plus displacement times the right vector of the
waypoint, with the vector negated when parking_lane_side is "left",
and with an additional 0.05 on the z coordinate. The function is pure:
it only reads the actor and waypoint (the single mutation in the
Python body targets the freshly built location). -/
theorem displaced_transform_components (parking_lane_side : String)
    (actor : Actor) (wp : Waypoint) :
    (get_displaced_transform parking_lane_side actor wp).x =
      wp.transform.location.x +
        ((wp.lane_width - actor.bounding_box.extent.y) / 4) *
          (if parking_lane_side = "left" then -wp.transform.right_vector.x
           else wp.transform.right_vector.x) ∧
    (get_displaced_transform parking_lane_side actor wp).y =
      wp.transform.location.y +
        ((wp.lane_width - actor.bounding_box.extent.y) / 4) *
          (if parking_lane_side = "left" then -wp.transform.right_vector.y
           else wp.transform.right_vector.y) ∧
    (get_displaced_transform parking_lane_side actor wp).z =
      wp.transform.location.z +
        ((wp.lane_width - actor.bounding_box.extent.y) / 4) *
          (if parking_lane_side = "left" then -wp.transform.right_vector.z
           else wp.transform.right_vector.z) + 0.05 := by
  by_cases h : parking_lane_side = "left" <;>
    simp [get_displaced_transform, h, Location.add, Vector3D.smul]

/-- Claim C9: _create_test_criteria returns the empty list whenever
route_mode is true, and otherwise a list holding exactly one criterion,
a CollisionTest on the first ego vehicle. -/
theorem test_criteria_cases (ego : Actor) :
    create_test_criteria true ego = [] ∧
    create_test_criteria false ego = [Criterion.collisionTest ego] :=
  ⟨rfl, rfl⟩

/-- Inversion of a successful setup: every query along the success path
returned a value, and the trace and state are determined by them. -/
theorem setup_success_spec (env : Env) (cfg : Config) (ego : Actor)
    (tr : List Transform) (st : ScenarioState)
    (h : parkingExitSetup env cfg ego = (tr, Except.ok st)) :
    ∃ pw fp fps front bp bps behind,
      parkingWaypointLookup env cfg = some pw ∧
      env.next pw (cfg.front_vehicle_distance.getD 20) = fp :: fps ∧
      env.request_new_actor fp.transform = some front ∧
      env.previous pw (cfg.behind_vehicle_distance.getD 5) = bp :: bps ∧
      env.request_new_actor bp.transform = some behind ∧
      tr = [fp.transform, bp.transform] ∧
      st = { front_vehicle_distance := cfg.front_vehicle_distance.getD 20
             behind_vehicle_distance := cfg.behind_vehicle_distance.getD 5
             end_distance := cfg.front_vehicle_distance.getD 20 + 15
             parking_lane_side := cfg.parking_lane_side.getD "right"
             reference_waypoint := env.get_waypoint cfg.trigger_location
             parking_waypoint := pw
             other_actors := [front, behind]
             placements :=
               [(front,
                 get_displaced_transform (cfg.parking_lane_side.getD "right")
                   front fp),
                (behind,
                 get_displaced_transform (cfg.parking_lane_side.getD "right")
                   behind bp),
                (ego,
                 get_displaced_transform (cfg.parking_lane_side.getD "right")
                   ego pw)] } := by
  unfold parkingExitSetup at h
  split at h
  next heq => simp at h
  next pw heq =>
    simp only [] at h
    split at h
    next heq2 => simp at h
    next fp fps heq2 =>
      split at h
      next heq3 => simp at h
      next front heq3 =>
        split at h
        next heq4 => simp at h
        next bp bps heq4 =>
          split at h
          next heq5 => simp at h
          next behind heq5 =>
            simp only [Prod.mk.injEq, Except.ok.injEq] at h
            exact ⟨pw, fp, fps, front, bp, bps, behind, heq, heq2, heq3,
              heq4, heq5, h.1.symm, h.2.symm⟩

/-- Claim C3: the parking-lane invariant is enforced by a single early
check: when the lane lookup on the configured side yields None,
the constructor raises the missing-parking-lane exception before
BasicScenario initialization, so no spawn request is issued and no
scenario actor is spawned (the request trace is empty). -/
theorem missing_lane_aborts (env : Env) (cfg : Config) (ego : Actor)
    (h : parkingWaypointLookup env cfg = none) :
    parkingExitSetup env cfg ego =
      ([], Except.error (SetupError.missingParkingLane
        (cfg.parking_lane_side.getD "right"))) := by
  unfold parkingExitSetup
  simp [h]

/-- Witness for claim C3 at a concrete world with no right lane. -/
theorem missing_lane_aborts_witness :
    parkingExitSetup noLaneEnv sampleCfg egoActor =
      ([], Except.error (SetupError.missingParkingLane
        (sampleCfg.parking_lane_side.getD "right"))) :=
  missing_lane_aborts noLaneEnv sampleCfg egoActor rfl

/-- Claim C2: setup (the constructor followed by _initialize_actors)
raises an exception if and only if one of the three documented
missing-data conditions holds: the parking lane is missing on the
requested side, a viable spawn position is missing (next for the front
vehicle, or previous for the behind vehicle, returns an empty list), or
an actor spawn fails (request_new_actor returns None). Setup returns
the first raised error unchanged, with no retry or recovery. -/
theorem setup_raises_iff (env : Env) (cfg : Config) (ego : Actor) :
    (∃ e, (parkingExitSetup env cfg ego).2 = Except.error e) ↔
      (parkingWaypointLookup env cfg = none ∨
       ∃ pw, parkingWaypointLookup env cfg = some pw ∧
         (env.next pw (cfg.front_vehicle_distance.getD 20) = [] ∨
          ∃ fp fps,
            env.next pw (cfg.front_vehicle_distance.getD 20) = fp :: fps ∧
            (env.request_new_actor fp.transform = none ∨
             ∃ fa,
               env.request_new_actor fp.transform = some fa ∧
               (env.previous pw (cfg.behind_vehicle_distance.getD 5) = [] ∨
                ∃ bp bps,
                  env.previous pw (cfg.behind_vehicle_distance.getD 5)
                    = bp :: bps ∧
                  env.request_new_actor bp.transform = none)))) := by
  cases h1 : parkingWaypointLookup env cfg with
  | none => simp [parkingExitSetup, h1]
  | some pw =>
    cases h2 : env.next pw (cfg.front_vehicle_distance.getD 20) with
    | nil => simp [parkingExitSetup, h1, h2]
    | cons fp fps =>
      cases h3 : env.request_new_actor fp.transform with
      | none => simp [parkingExitSetup, h1, h2, h3]
      | some fa =>
        cases h4 : env.previous pw (cfg.behind_vehicle_distance.getD 5) with
        | nil => simp [parkingExitSetup, h1, h2, h3, h4]
        | cons bp bps =>
          cases h5 : env.request_new_actor bp.transform with
          | none => simp [parkingExitSetup, h1, h2, h3, h4, h5]
          | some ba => simp [parkingExitSetup, h1, h2, h3, h4, h5]

/-- Claim C4: the parking waypoint is the left lane of the reference
waypoint at the first trigger location when parking_lane_side is
"left", and its right lane for every other value, including the
default "right" used when the parameter is absent. -/
theorem parking_waypoint_side (env : Env) (cfg : Config) (ego : Actor)
    (tr : List Transform) (st : ScenarioState)
    (h : parkingExitSetup env cfg ego = (tr, Except.ok st)) :
    st.parking_lane_side = cfg.parking_lane_side.getD "right" ∧
    some st.parking_waypoint = parkingWaypointLookup env cfg ∧
    (st.parking_lane_side = "left" →
      some st.parking_waypoint =
        env.get_left_lane (env.get_waypoint cfg.trigger_location)) ∧
    (st.parking_lane_side ≠ "left" →
      some st.parking_waypoint =
        env.get_right_lane (env.get_waypoint cfg.trigger_location)) := by
  obtain ⟨pw, fp, fps, front, bp, bps, behind, h1, -, -, -, -, -, hst⟩ :=
    setup_success_spec env cfg ego tr st h
  subst hst
  refine ⟨rfl, h1.symm, ?_, ?_⟩
  · intro hl
    have hl2 : cfg.parking_lane_side.getD "right" = "left" := hl
    unfold parkingWaypointLookup at h1
    rw [if_pos hl2] at h1
    exact h1.symm
  · intro hl
    have hl2 : ¬ cfg.parking_lane_side.getD "right" = "left" := hl
    unfold parkingWaypointLookup at h1
    rw [if_neg hl2] at h1
    exact h1.symm

/-- Claim C5: in every successful setup, the displacement formula is
applied to exactly three actors, in this order: the vehicle spawned in
front of the parking waypoint, the vehicle spawned behind it, and the
first ego vehicle, which is repositioned last; the two spawned vehicles
are exactly the content of other_actors, in spawn order. -/
theorem placements_exactly_three (env : Env) (cfg : Config) (ego : Actor)
    (tr : List Transform) (st : ScenarioState)
    (h : parkingExitSetup env cfg ego = (tr, Except.ok st)) :
    ∃ front behind fwp bwp,
      st.other_actors = [front, behind] ∧
      st.placements =
        [(front, get_displaced_transform st.parking_lane_side front fwp),
         (behind, get_displaced_transform st.parking_lane_side behind bwp),
         (ego, get_displaced_transform st.parking_lane_side ego
            st.parking_waypoint)] := by
  obtain ⟨pw, fp, fps, front, bp, bps, behind, -, -, -, -, -, -, hst⟩ :=
    setup_success_spec env cfg ego tr st h
  subst hst
  exact ⟨front, behind, fp, bp, rfl, rfl⟩

/-- Claim C6: the behavior tree is a Sequence whose children, in order,
are the node deactivating OutsideRouteLanesTest, a SUCCESS_ON_ONE
Parallel holding a Sequence with a DriveDistance condition on the first
ego vehicle at threshold end_distance, the node reactivating
OutsideRouteLanesTest, and one ActorDestroy per actor of other_actors
in spawn order, front vehicle then behind vehicle. -/
theorem behavior_tree_structure (env : Env) (cfg : Config) (ego : Actor)
    (tr : List Transform) (st : ScenarioState)
    (h : parkingExitSetup env cfg ego = (tr, Except.ok st)) :
    ∃ front behind,
      st.other_actors = [front, behind] ∧
      create_behavior ego st.end_distance st.other_actors =
        BehaviorNode.sequenceNode
          [BehaviorNode.switchOutsideRouteLanesTest false,
           BehaviorNode.parallelSuccessOnOne
             [BehaviorNode.sequenceNode
               [BehaviorNode.driveDistance ego st.end_distance]],
           BehaviorNode.switchOutsideRouteLanesTest true,
           BehaviorNode.actorDestroy front,
           BehaviorNode.actorDestroy behind] := by
  obtain ⟨pw, fp, fps, front, bp, bps, behind, -, -, -, -, -, -, hst⟩ :=
    setup_success_spec env cfg ego tr st h
  subst hst
  exact ⟨front, behind, rfl, rfl⟩

/-- Claim C8: in every successful setup, the end distance equals
front_vehicle_distance + 15; front_vehicle_distance defaults to 20 and
behind_vehicle_distance to 5 when absent from the configuration, so
with defaults the DriveDistance threshold is 35 meters. -/
theorem end_distance_param (env : Env) (cfg : Config) (ego : Actor)
    (tr : List Transform) (st : ScenarioState)
    (h : parkingExitSetup env cfg ego = (tr, Except.ok st)) :
    st.end_distance = st.front_vehicle_distance + 15 ∧
    (cfg.front_vehicle_distance = none → st.front_vehicle_distance = 20) ∧
    (cfg.behind_vehicle_distance = none → st.behind_vehicle_distance = 5) ∧
    (cfg.front_vehicle_distance = none → st.end_distance = 35) := by
  obtain ⟨pw, fp, fps, front, bp, bps, behind, -, -, -, -, -, -, hst⟩ :=
    setup_success_spec env cfg ego tr st h
  subst hst
  refine ⟨rfl, ?_, ?_, ?_⟩ <;> intro hn <;> simp [hn]
  norm_num

/-- Witness for claim C4 at a concrete successful setup. -/
theorem parking_waypoint_side_witness :
    sampleState.parking_lane_side = sampleCfg.parking_lane_side.getD "right" ∧
    some sampleState.parking_waypoint =
      parkingWaypointLookup sampleEnv sampleCfg ∧
    (sampleState.parking_lane_side = "left" →
      some sampleState.parking_waypoint =
        sampleEnv.get_left_lane
          (sampleEnv.get_waypoint sampleCfg.trigger_location)) ∧
    (sampleState.parking_lane_side ≠ "left" →
      some sampleState.parking_waypoint =
        sampleEnv.get_right_lane
          (sampleEnv.get_waypoint sampleCfg.trigger_location)) :=
  parking_waypoint_side sampleEnv sampleCfg egoActor sampleTrace sampleState
    rfl

/-- Witness for claim C5 at a concrete successful setup. -/
theorem placements_exactly_three_witness :
    ∃ front behind fwp bwp,
      sampleState.other_actors = [front, behind] ∧
      sampleState.placements =
        [(front,
          get_displaced_transform sampleState.parking_lane_side front fwp),
         (behind,
          get_displaced_transform sampleState.parking_lane_side behind bwp),
         (egoActor,
          get_displaced_transform sampleState.parking_lane_side egoActor
            sampleState.parking_waypoint)] :=
  placements_exactly_three sampleEnv sampleCfg egoActor sampleTrace
    sampleState rfl

/-- Witness for claim C6 at a concrete successful setup. -/
theorem behavior_tree_structure_witness :
    ∃ front behind,
      sampleState.other_actors = [front, behind] ∧
      create_behavior egoActor sampleState.end_distance
          sampleState.other_actors =
        BehaviorNode.sequenceNode
          [BehaviorNode.switchOutsideRouteLanesTest false,
           BehaviorNode.parallelSuccessOnOne
             [BehaviorNode.sequenceNode
               [BehaviorNode.driveDistance egoActor
                  sampleState.end_distance]],
           BehaviorNode.switchOutsideRouteLanesTest true,
           BehaviorNode.actorDestroy front,
           BehaviorNode.actorDestroy behind] :=
  behavior_tree_structure sampleEnv sampleCfg egoActor sampleTrace
    sampleState rfl

/-- Witness for claim C8 at a concrete successful setup. -/
theorem end_distance_param_witness :
    sampleState.end_distance = sampleState.front_vehicle_distance + 15 ∧
    (sampleCfg.front_vehicle_distance = none →
      sampleState.front_vehicle_distance = 20) ∧
    (sampleCfg.behind_vehicle_distance = none →
      sampleState.behind_vehicle_distance = 5) ∧
    (sampleCfg.front_vehicle_distance = none →
      sampleState.end_distance = 35) :=
  end_distance_param sampleEnv sampleCfg egoActor sampleTrace sampleState rfl
